import Mathlib

/-!
Verification of the Video-Audio-Alignment-Toolkit alignment pipeline
(`src/video_audio_align/`): the alignment engine `align_frames_to_transcript`,
the orchestrator `process_video`, the subtitle timestamp formatter
`_format_timestamp` and the `alignment_to_srt` renderer. Python floats are
modelled as exact rationals; Python `int()` is truncation toward zero; Python
`round()` is round-half-to-even; Python `divmod` is floor division. The
file-system and subprocess effects of the orchestrator are modelled by an
explicit environment (the results the external collaborators would produce)
and a trace of observable actions in execution order.
-/

namespace VideoAudioAlign

/-- A transcript segment as produced by `transcribe_audio` in `align.py`:
text plus start and end timestamps in seconds. -/
structure Segment where
  text : String
  start_time : ℚ
  end_time : ℚ
deriving DecidableEq, Repr

/-- An alignment entry as built by `align_frames_to_transcript` in `align.py`
(lines 116-125): the segment data, the computed frame interval, and the
video's native fps attached for reference. -/
structure AlignmentEntry where
  text : String
  start_time : ℚ
  end_time : ℚ
  start_frame : ℤ
  end_frame : ℤ
  video_fps : ℚ
deriving DecidableEq, Repr

/-- Python `int()` applied to an exact numeric value: truncation toward
zero (floor for non-negative arguments, ceiling for negative ones). -/
def pyTrunc (q : ℚ) : ℤ :=
  if 0 ≤ q then ⌊q⌋ else ⌈q⌉

/-- Loop body of `align_frames_to_transcript` (`align.py` lines 110-124):
`start_frame = max(0, int(start_time * extraction_fps))`,
`end_frame = max(start_frame, int(end_time * extraction_fps))`, and the
entry carries the segment's text, times, and the nominal `video_fps`. -/
def alignEntryOf (video_fps extraction_fps : ℚ) (segment : Segment) : AlignmentEntry :=
  let start_time := segment.start_time
  let end_time := segment.end_time
  let start_frame := max 0 (pyTrunc (start_time * extraction_fps))
  let end_frame := max start_frame (pyTrunc (end_time * extraction_fps))
  { text := segment.text
    start_time := start_time
    end_time := end_time
    start_frame := start_frame
    end_frame := end_frame
    video_fps := video_fps }

/-- `align_frames_to_transcript` from `align.py` (lines 84-127): iterate over
the segments in order, appending one alignment entry per segment to an
accumulator list (`aligned.append(...)` inside the `for` loop). -/
def align_frames_to_transcript (segments : List Segment)
    (video_fps : ℚ) (extraction_fps : ℚ) : List AlignmentEntry :=
  segments.foldl
    (fun aligned segment => aligned ++ [alignEntryOf video_fps extraction_fps segment]) []

/-- The error kind of the spec's guarded Alignment Engine. Modelled from the
spec: "Fails only if `extraction_fps <= 0` would be passed (... reject with a
`ConfigurationError` before computing)". No such guard, and no
`ConfigurationError`, exists anywhere in the source. -/
inductive ConfigError where
  | configurationError
deriving DecidableEq, Repr

/-- Modelled from the spec: the guarded engine the spec describes, present
here only to contrast with the unguarded source engine. -/
def alignSpecGuarded (segments : List Segment) (video_fps extraction_fps : ℚ) :
    Except ConfigError (List AlignmentEntry) :=
  if extraction_fps ≤ 0 then Except.error ConfigError.configurationError
  else Except.ok (align_frames_to_transcript segments video_fps extraction_fps)

/-- Python `str.strip()`: remove leading and trailing whitespace characters. -/
def pyStrip (s : String) : String :=
  String.mk (((s.data.dropWhile Char.isWhitespace).reverse.dropWhile
    Char.isWhitespace).reverse)

/-- Python `round()` on an exact numeric value: round half to even,
returning an integer. -/
def pyRound (q : ℚ) : ℤ :=
  if q - ⌊q⌋ < 1/2 then ⌊q⌋
  else if 1/2 < q - ⌊q⌋ then ⌊q⌋ + 1
  else if ⌊q⌋ % 2 = 0 then ⌊q⌋ else ⌊q⌋ + 1

/-- Python `divmod` on integers: floor division with its remainder. -/
def pyDivMod (a b : ℤ) : ℤ × ℤ := (Int.fdiv a b, Int.fmod a b)

/-- Decimal digits of a natural number left-padded with zeros to `width`. -/
def padZeros (width : Nat) (n : Nat) : String :=
  String.mk (List.replicate (width - (toString n).length) '0') ++ toString n

/-- Python zero-padded integer formatting (format spec `0Nd`): the sign
counts toward the width. -/
def padInt (width : Nat) (n : ℤ) : String :=
  if n < 0 then "-" ++ padZeros (width - 1) n.natAbs else padZeros width n.toNat

/-- `_format_timestamp` from `to_srt.py` (lines 10-18):
`millis = int(round(seconds * 1000))`, then `divmod` by 3600000, 60000 and
1000, rendered as `HH:MM:SS,mmm` with zero padding. -/
def _format_timestamp (seconds : ℚ) : String :=
  let millis := pyRound (seconds * 1000)
  let d1 := pyDivMod millis 3600000
  let d2 := pyDivMod d1.2 60000
  let d3 := pyDivMod d2.2 1000
  padInt 2 d1.1 ++ ":" ++ padInt 2 d2.1 ++ ":" ++ padInt 2 d3.1 ++ "," ++ padInt 3 d3.2

/-- One block of the loop body of `alignment_to_srt` (`to_srt.py` lines 51-56):
the 1-based index, the timing line, the stripped text (the placeholder
`[inaudible]` when the stripped text is empty), and a blank separator line. -/
def srtBlock (idx : Nat) (e : AlignmentEntry) : List String :=
  [toString idx,
   _format_timestamp e.start_time ++ " --> " ++ _format_timestamp e.end_time,
   if pyStrip e.text = "" then "[inaudible]" else pyStrip e.text,
   ""]

/-- The rendering loop of `alignment_to_srt`: `enumerate(alignment, start=1)`
with `lines.extend([...])` into an accumulator. -/
def srtLines (alignment : List AlignmentEntry) : List String :=
  (alignment.foldl (fun acc e => (acc.1 + 1, acc.2 ++ srtBlock acc.1 e))
    ((1 : Nat), ([] : List String))).2

/-- Run metadata persisted as `metadata.json` (`align.py` lines 183-190). -/
structure RunMetadata where
  video_path : String
  audio_path : String
  frame_dir : String
  frame_count : Nat
  video_fps : ℚ
  extraction_fps : ℚ
deriving DecidableEq, Repr

/-- Abstract environment of one `process_video` run: the answers the external
collaborators (file system, audio extractor, transcriber, frame sampler,
prober) would give. The orchestrator consumes these but does not implement
them. `outputDirExists` is carried only to state that the run is independent
of it (`mkdir(parents=True, exist_ok=True)` never fails). -/
structure PipelineEnv where
  videoExists : Bool
  outputDirExists : Bool
  audioSize : Nat
  transcription : List Segment
  frameCount : Nat
  videoFps : ℚ
deriving DecidableEq, Repr

/-- Observable actions of `process_video`, recorded in execution order. -/
inductive PipelineEvent where
  | mkdirOutputDir
  | extractAudioCall
  | warnEmptyAudio
  | transcribeCall
  | extractFramesCall (fps : ℚ)
  | probeVideoFps
  | alignCall (extraction_fps : ℚ)
  | writeAlignmentFile (entries : List AlignmentEntry)
  | writeMetadataFile (m : RunMetadata)
deriving DecidableEq, Repr

/-- The validation error the pipeline itself raises (`FileNotFoundError`). -/
inductive PipeError where
  | notFound (path : String)
deriving DecidableEq, Repr

/-- `process_video` from `align.py` (lines 130-193): validate that the video
exists, create the output directory, extract audio; if the audio artifact has
zero size, warn and use an empty transcript, otherwise transcribe; extract
frames and probe the native fps unconditionally; align when the transcript is
non-empty; write `alignment.json` and `metadata.json`; return the alignment.
Returns the trace of observable actions plus the result. -/
def process_video (env : PipelineEnv) (video_path output_dir : String) (fps : ℚ) :
    List PipelineEvent × Except PipeError (List AlignmentEntry) :=
  if env.videoExists = false then
    ([], Except.error (PipeError.notFound video_path))
  else
    let ev0 : List PipelineEvent :=
      [PipelineEvent.mkdirOutputDir, PipelineEvent.extractAudioCall]
    let step2 : List PipelineEvent × List Segment :=
      if env.audioSize = 0 then (ev0 ++ [PipelineEvent.warnEmptyAudio], [])
      else (ev0 ++ [PipelineEvent.transcribeCall], env.transcription)
    let segments := step2.2
    let ev1 := step2.1 ++ [PipelineEvent.extractFramesCall fps, PipelineEvent.probeVideoFps]
    let video_fps := env.videoFps
    let step5 : List PipelineEvent × List AlignmentEntry :=
      if segments.isEmpty then (ev1, [])
      else (ev1 ++ [PipelineEvent.alignCall fps],
        align_frames_to_transcript segments video_fps fps)
    let alignment := step5.2
    let metadata : RunMetadata :=
      { video_path := video_path
        audio_path := output_dir ++ "/audio.wav"
        frame_dir := output_dir ++ "/frames"
        frame_count := env.frameCount
        video_fps := video_fps
        extraction_fps := fps }
    (step5.1 ++ [PipelineEvent.writeAlignmentFile alignment,
      PipelineEvent.writeMetadataFile metadata], Except.ok alignment)

/-- Abstract environment of one `alignment_to_srt` run: whether the alignment
JSON file exists and, if so, the entries parsed from it. `parentDirExists` is
carried only to state that the run is independent of it. -/
structure SrtEnv where
  alignFileExists : Bool
  parentDirExists : Bool
  alignContent : List AlignmentEntry
deriving DecidableEq, Repr

/-- Observable actions of `alignment_to_srt`, in execution order. -/
inductive SrtEvent where
  | mkdirParent
  | writeSrtFile (content : String)
deriving DecidableEq, Repr

/-- `alignment_to_srt` from `to_srt.py` (lines 21-59): validate that the
alignment JSON file exists, create the output file's parent directory, render
the blocks joined by newlines, write the `.srt` file, return its path. -/
def alignment_to_srt (env : SrtEnv) (alignment_json_path output_srt_path : String) :
    List SrtEvent × Except PipeError String :=
  if env.alignFileExists = false then
    ([], Except.error (PipeError.notFound alignment_json_path))
  else
    ([SrtEvent.mkdirParent,
      SrtEvent.writeSrtFile (String.intercalate "\n" (srtLines env.alignContent))],
     Except.ok output_srt_path)

theorem foldl_append_singleton {α β : Type} (f : α → β) :
    ∀ (l : List α) (acc : List β),
      l.foldl (fun r a => r ++ [f a]) acc = acc ++ l.map f := by
  intro l
  induction l with
  | nil => intro acc; simp
  | cons x xs ih => intro acc; simp [List.foldl, ih]

/-- The append-accumulate loop of the engine is exactly a `map` of the
per-segment entry constructor over the input list. -/
theorem align_eq_map (segments : List Segment) (video_fps extraction_fps : ℚ) :
    align_frames_to_transcript segments video_fps extraction_fps
      = segments.map (alignEntryOf video_fps extraction_fps) := by
  simpa [align_frames_to_transcript] using
    foldl_append_singleton (alignEntryOf video_fps extraction_fps) segments []

theorem pyTrunc_eq_floor {q : ℚ} (h : 0 ≤ q) : pyTrunc q = ⌊q⌋ := by
  simp [pyTrunc, h]

theorem pyRound_nonneg {q : ℚ} (h : 0 ≤ q) : 0 ≤ pyRound q := by
  have hf : (0:ℤ) ≤ ⌊q⌋ := Int.floor_nonneg.mpr h
  unfold pyRound
  split
  · exact hf
  · split
    · omega
    · split <;> omega

theorem pyDivMod_eq (a b : ℤ) (hb : 0 ≤ b) : pyDivMod a b = (a / b, a % b) := by
  simp [pyDivMod, Int.fdiv_eq_ediv _ hb, Int.fmod_eq_emod _ hb]

theorem padInt_of_nonneg (width : Nat) {n : ℤ} (h : 0 ≤ n) :
    padInt width n = padZeros width n.toNat := by
  simp [padInt, not_lt.mpr h]

theorem srtLines_foldl (l : List AlignmentEntry) :
    ∀ (i : Nat) (acc : List String),
      (l.foldl (fun acc e => (acc.1 + 1, acc.2 ++ srtBlock acc.1 e)) (i, acc)).2
        = acc ++ (List.enumFrom i l).flatMap (fun p => srtBlock p.1 p.2) := by
  induction l with
  | nil => intro i acc; simp [List.enumFrom]
  | cons x xs ih => intro i acc; simp [List.enumFrom, List.foldl, ih (i+1)]

/-- C1: for every transcript segment with `0 ≤ start_time ≤ end_time` and every
`extraction_fps > 0`, `align_frames_to_transcript` produces the entry with
`start_frame = ⌊start_time * extraction_fps⌋` and
`end_frame = ⌊end_time * extraction_fps⌋`; in particular Scenario A
(`{1.5, 2.5}` at fps 1 gives frames `{1, 2}`) and Scenario B
(`{0.2, 0.9}` at fps 2 gives frames `{0, 1}`) hold. -/
theorem claim1_floor_frames (segments : List Segment) (s : Segment)
    (video_fps extraction_fps : ℚ) (hs : s ∈ segments)
    (h0 : 0 ≤ s.start_time) (h1 : s.start_time ≤ s.end_time)
    (hf : 0 < extraction_fps) :
    ({ text := s.text, start_time := s.start_time, end_time := s.end_time,
       start_frame := ⌊s.start_time * extraction_fps⌋,
       end_frame := ⌊s.end_time * extraction_fps⌋,
       video_fps := video_fps } : AlignmentEntry)
      ∈ align_frames_to_transcript segments video_fps extraction_fps ∧
    align_frames_to_transcript [⟨"hello", 3/2, 5/2⟩] video_fps 1
      = [⟨"hello", 3/2, 5/2, 1, 2, video_fps⟩] ∧
    align_frames_to_transcript [⟨"hi", 1/5, 9/10⟩] video_fps 2
      = [⟨"hi", 1/5, 9/10, 0, 1, video_fps⟩] := by
  refine ⟨?_, ?_, ?_⟩
  · rw [align_eq_map]
    refine List.mem_map.mpr ⟨s, hs, ?_⟩
    have hsf : (0:ℚ) ≤ s.start_time * extraction_fps := mul_nonneg h0 hf.le
    have hef : (0:ℚ) ≤ s.end_time * extraction_fps := mul_nonneg (h0.trans h1) hf.le
    have hmono : s.start_time * extraction_fps ≤ s.end_time * extraction_fps :=
      mul_le_mul_of_nonneg_right h1 hf.le
    have h2 : max (0:ℤ) ⌊s.start_time * extraction_fps⌋ = ⌊s.start_time * extraction_fps⌋ :=
      max_eq_right (Int.floor_nonneg.mpr hsf)
    have h3 : max ⌊s.start_time * extraction_fps⌋ ⌊s.end_time * extraction_fps⌋
        = ⌊s.end_time * extraction_fps⌋ := max_eq_right (Int.floor_le_floor hmono)
    simp [alignEntryOf, pyTrunc_eq_floor hsf, pyTrunc_eq_floor hef, h2, h3]
  · norm_num [align_frames_to_transcript, alignEntryOf, pyTrunc, max_def, Int.ceil_neg]
  · norm_num [align_frames_to_transcript, alignEntryOf, pyTrunc, max_def, Int.ceil_neg]

/-- Witness for C1 at Scenario A's segment with `video_fps = 30`. -/
theorem claim1_witness :
    ((⟨"hello", 3/2, 5/2⟩ : Segment) ∈ ([⟨"hello", 3/2, 5/2⟩] : List Segment)) ∧
    (0 : ℚ) ≤ (3/2 : ℚ) ∧ (3/2 : ℚ) ≤ (5/2 : ℚ) ∧ (0 : ℚ) < 1 ∧
    ({ text := "hello", start_time := 3/2, end_time := 5/2,
       start_frame := ⌊(3/2 : ℚ) * 1⌋, end_frame := ⌊(5/2 : ℚ) * 1⌋,
       video_fps := (30:ℚ) } : AlignmentEntry)
      ∈ align_frames_to_transcript [⟨"hello", 3/2, 5/2⟩] 30 1 := by
  refine ⟨List.mem_singleton_self _, by norm_num, by norm_num, by norm_num, ?_⟩
  exact (claim1_floor_frames [⟨"hello", 3/2, 5/2⟩] ⟨"hello", 3/2, 5/2⟩ 30 1
    (List.mem_singleton_self _) (by norm_num) (by norm_num) (by norm_num)).1

/-- C2 counterexample: at `extraction_fps = -1` the source engine does not
reject the call with a `ConfigurationError`: it returns normally, computing a
frame-index entry (frames clamped to `0, 0`), while the spec's guarded engine
would reject. -/
theorem claim2_counterexample :
    align_frames_to_transcript [⟨"x", 1, 2⟩] 30 (-1) = [⟨"x", 1, 2, 0, 0, 30⟩] ∧
    alignSpecGuarded [⟨"x", 1, 2⟩] 30 (-1)
      = Except.error ConfigError.configurationError := by
  constructor
  · norm_num [align_frames_to_transcript, alignEntryOf, pyTrunc, max_def, Int.ceil_neg]
  · norm_num [alignSpecGuarded]

/-- C2 amended: `align_frames_to_transcript` performs no validation of
`extraction_fps` and never fails: for every non-positive `extraction_fps` it
still returns normally, one clamped entry per segment. -/
theorem claim2_no_guard (segments : List Segment) (video_fps extraction_fps : ℚ)
    (_h : extraction_fps ≤ 0) :
    (align_frames_to_transcript segments video_fps extraction_fps).length
      = segments.length ∧
    align_frames_to_transcript segments video_fps extraction_fps
      = segments.map (alignEntryOf video_fps extraction_fps) :=
  ⟨by simp [align_eq_map], align_eq_map segments video_fps extraction_fps⟩

/-- Witness for the amended C2 at `extraction_fps = -1`. -/
theorem claim2_witness :
    ((-1 : ℚ) ≤ 0) ∧
    ((align_frames_to_transcript [⟨"x", 1, 2⟩] 30 (-1)).length
        = ([⟨"x", 1, 2⟩] : List Segment).length ∧
      align_frames_to_transcript [⟨"x", 1, 2⟩] 30 (-1)
        = ([⟨"x", 1, 2⟩] : List Segment).map (alignEntryOf 30 (-1))) :=
  ⟨by norm_num, claim2_no_guard [⟨"x", 1, 2⟩] 30 (-1) (by norm_num)⟩

/-- C3: the engine is length-preserving and order-preserving: one output entry
per input segment, the output is the map of the per-segment constructor over
the input, and the i-th output entry is derived from the i-th input segment. -/
theorem claim3_length_order (segments : List Segment) (video_fps extraction_fps : ℚ) :
    (align_frames_to_transcript segments video_fps extraction_fps).length
      = segments.length ∧
    align_frames_to_transcript segments video_fps extraction_fps
      = segments.map (alignEntryOf video_fps extraction_fps) ∧
    ∀ i : Nat, (align_frames_to_transcript segments video_fps extraction_fps)[i]?
      = (segments[i]?).map (alignEntryOf video_fps extraction_fps) := by
  refine ⟨by simp [align_eq_map], align_eq_map segments video_fps extraction_fps, ?_⟩
  intro i
  rw [align_eq_map, List.getElem?_map]

/-- C4: every produced entry satisfies `0 ≤ start_frame ≤ end_frame`, for all
inputs, including malformed segments with `end_time < start_time`, which are
clamped rather than rejected (e.g. `{5, 2}` at fps 1 yields frames `{5, 5}`). -/
theorem claim4_frame_invariants (segments : List Segment) (video_fps extraction_fps : ℚ) :
    (∀ e ∈ align_frames_to_transcript segments video_fps extraction_fps,
      0 ≤ e.start_frame ∧ e.start_frame ≤ e.end_frame) ∧
    align_frames_to_transcript [⟨"x", 5, 2⟩] 30 1 = [⟨"x", 5, 2, 5, 5, 30⟩] := by
  constructor
  · intro e he
    rw [align_eq_map] at he
    obtain ⟨s, _, rfl⟩ := List.mem_map.mp he
    exact ⟨le_max_left 0 _, le_max_left _ _⟩
  · norm_num [align_frames_to_transcript, alignEntryOf, pyTrunc, max_def, Int.ceil_neg]

/-- Witness for C4 at the malformed segment `{5, 2}`. -/
theorem claim4_witness :
    ((⟨"x", 5, 2, 5, 5, 30⟩ : AlignmentEntry)
        ∈ align_frames_to_transcript [⟨"x", 5, 2⟩] 30 1) ∧
    (0 ≤ (⟨"x", 5, 2, 5, 5, 30⟩ : AlignmentEntry).start_frame ∧
      (⟨"x", 5, 2, 5, 5, 30⟩ : AlignmentEntry).start_frame
        ≤ (⟨"x", 5, 2, 5, 5, 30⟩ : AlignmentEntry).end_frame) := by
  have hmem : (⟨"x", 5, 2, 5, 5, 30⟩ : AlignmentEntry)
      ∈ align_frames_to_transcript [⟨"x", 5, 2⟩] 30 1 := by
    norm_num [align_frames_to_transcript, alignEntryOf, pyTrunc, max_def, Int.ceil_neg]
  exact ⟨hmem, (claim4_frame_invariants [⟨"x", 5, 2⟩] 30 1).1 _ hmem⟩

/-- C6: on the same segments and the same `extraction_fps`, two runs with
different `video_fps` values produce identical frame intervals (`video_fps`
does not influence the frame-index computation), and every entry's
`video_fps` field is exactly the argument passed in. -/
theorem claim6_video_fps_ref (segments : List Segment) (extraction_fps v1 v2 : ℚ) :
    (align_frames_to_transcript segments v1 extraction_fps).map
        (fun e => (e.start_frame, e.end_frame))
      = (align_frames_to_transcript segments v2 extraction_fps).map
        (fun e => (e.start_frame, e.end_frame)) ∧
    ∀ e ∈ align_frames_to_transcript segments v1 extraction_fps,
      e.video_fps = v1 := by
  constructor
  · rw [align_eq_map, align_eq_map, List.map_map, List.map_map]
    induction segments with
    | nil => simp
    | cons x xs ih => simp only [List.map_cons, ih]; rfl
  · intro e he
    rw [align_eq_map] at he
    obtain ⟨s, _, rfl⟩ := List.mem_map.mp he
    rfl

/-- Witness for C6's per-entry `video_fps` fact at Scenario A's segment. -/
theorem claim6_witness :
    ((⟨"hello", 3/2, 5/2, 1, 2, 30⟩ : AlignmentEntry)
        ∈ align_frames_to_transcript [⟨"hello", 3/2, 5/2⟩] 30 1) ∧
    (⟨"hello", 3/2, 5/2, 1, 2, 30⟩ : AlignmentEntry).video_fps = 30 := by
  have hmem : (⟨"hello", 3/2, 5/2, 1, 2, 30⟩ : AlignmentEntry)
      ∈ align_frames_to_transcript [⟨"hello", 3/2, 5/2⟩] 30 1 := by
    norm_num [align_frames_to_transcript, alignEntryOf, pyTrunc, max_def, Int.ceil_neg]
  exact ⟨hmem, (claim6_video_fps_ref [⟨"hello", 3/2, 5/2⟩] 1 30 7).2 _ hmem⟩

/-- C8: for every non-negative timestamp in seconds, `_format_timestamp`
renders the millisecond-rounded value as a zero-padded `HH:MM:SS,mmm` token
(minutes, seconds below 60, milliseconds below 1000, and the rendered digits
recompose to the rounded millisecond count); in particular `75.34` seconds
renders as `00:01:15,340`. -/
theorem claim8_timestamp (seconds : ℚ) (hs : 0 ≤ seconds) :
    (∃ h m sec ms : ℕ, m < 60 ∧ sec < 60 ∧ ms < 1000 ∧
      pyRound (seconds * 1000) = 3600000 * h + 60000 * m + 1000 * sec + ms ∧
      _format_timestamp seconds
        = padZeros 2 h ++ ":" ++ padZeros 2 m ++ ":" ++ padZeros 2 sec
            ++ "," ++ padZeros 3 ms) ∧
    _format_timestamp (7534/100) = "00:01:15,340" := by
  constructor
  · set M := pyRound (seconds * 1000) with hMdef
    have hM : 0 ≤ M := pyRound_nonneg (mul_nonneg hs (by norm_num))
    refine ⟨(M / 3600000).toNat, ((M % 3600000) / 60000).toNat,
      (((M % 3600000) % 60000) / 1000).toNat, (((M % 3600000) % 60000) % 1000).toNat,
      by omega, by omega, by omega, by omega, ?_⟩
    have hdm1 := pyDivMod_eq M 3600000 (by norm_num)
    have hdm2 := pyDivMod_eq (M % 3600000) 60000 (by norm_num)
    have hdm3 := pyDivMod_eq ((M % 3600000) % 60000) 1000 (by norm_num)
    simp only [_format_timestamp, ← hMdef, hdm1, hdm2, hdm3]
    rw [padInt_of_nonneg 2 (by omega), padInt_of_nonneg 2 (by omega),
      padInt_of_nonneg 2 (by omega), padInt_of_nonneg 3 (by omega)]
  · have h : pyRound ((7534/100:ℚ) * 1000) = 75340 := by norm_num [pyRound]
    simp only [_format_timestamp, h]
    decide

/-- Witness for C8 at `75.34` seconds. -/
theorem claim8_witness :
    ((0:ℚ) ≤ 7534/100) ∧
    ((∃ h m sec ms : ℕ, m < 60 ∧ sec < 60 ∧ ms < 1000 ∧
        pyRound ((7534/100 : ℚ) * 1000) = 3600000 * h + 60000 * m + 1000 * sec + ms ∧
        _format_timestamp (7534/100)
          = padZeros 2 h ++ ":" ++ padZeros 2 m ++ ":" ++ padZeros 2 sec
              ++ "," ++ padZeros 3 ms) ∧
      _format_timestamp (7534/100) = "00:01:15,340") :=
  ⟨by norm_num, claim8_timestamp (7534/100) (by norm_num)⟩

/-- C9: the rendered subtitle lines are exactly the blocks of the entries
enumerated with a sequential 1-based index — each block being the index, the
timing line, the text line and a blank separator — and an entry whose text is
whitespace-only is rendered with the literal placeholder `[inaudible]`. -/
theorem claim9_srt_blocks (alignment : List AlignmentEntry) :
    srtLines alignment
      = (List.enumFrom 1 alignment).flatMap (fun p => srtBlock p.1 p.2) ∧
    srtLines [⟨"  ", 0, 1, 0, 1, 30⟩]
      = ["1", "00:00:00,000 --> 00:00:01,000", "[inaudible]", ""] := by
  constructor
  · simpa [srtLines] using srtLines_foldl alignment 1 []
  · have h0 : pyRound ((0:ℚ) * 1000) = 0 := by norm_num [pyRound]
    have h1 : pyRound ((1:ℚ) * 1000) = 1000 := by norm_num [pyRound]
    simp only [srtLines, List.foldl, srtBlock, _format_timestamp, h0, h1]
    decide

/-- C5: on a run whose extracted audio artifact has zero size, `process_video`
does not fail: it returns `ok []`, emits the empty-audio warning, never invokes
the transcriber, still calls the frame sampler, writes `alignment.json` as the
empty list, and writes `metadata.json` whose `frame_count` is the sampler's
actual count; moreover on any successful run the returned record is empty
exactly when the audio was empty or transcription returned no segments. -/
theorem claim5_empty_audio (env : PipelineEnv) (video_path output_dir : String)
    (fps : ℚ) (hv : env.videoExists = true) :
    (env.audioSize = 0 →
      (process_video env video_path output_dir fps).2 = Except.ok [] ∧
      PipelineEvent.warnEmptyAudio ∈ (process_video env video_path output_dir fps).1 ∧
      PipelineEvent.transcribeCall ∉ (process_video env video_path output_dir fps).1 ∧
      PipelineEvent.extractFramesCall fps ∈ (process_video env video_path output_dir fps).1 ∧
      PipelineEvent.writeAlignmentFile [] ∈ (process_video env video_path output_dir fps).1 ∧
      ∀ m, PipelineEvent.writeMetadataFile m ∈ (process_video env video_path output_dir fps).1 →
        m.frame_count = env.frameCount) ∧
    (∀ l, (process_video env video_path output_dir fps).2 = Except.ok l →
      (l = [] ↔ env.audioSize = 0 ∨ env.transcription = [])) := by
  by_cases ha : env.audioSize = 0
  · constructor
    · intro _
      simp [process_video, hv, ha]
    · intro l hl
      simp [process_video, hv, ha] at hl
      simp [← hl, ha]
  · constructor
    · intro h0
      exact absurd h0 ha
    · intro l hl
      by_cases ht : env.transcription = []
      · simp [process_video, hv, ha, ht] at hl
        simp [← hl, ht]
      · have hne : ¬ env.transcription.isEmpty := by
          simpa [List.isEmpty_iff] using ht
        simp [process_video, hv, ha, hne] at hl
        simp [← hl, align_eq_map, List.map_eq_nil_iff, ha, ht]

/-- Witness for C5: a run with an existing video and a zero-size audio
artifact returns the empty alignment record. -/
theorem claim5_witness :
    ({ videoExists := true, outputDirExists := true, audioSize := 0,
       transcription := [⟨"hey", 0, 1⟩], frameCount := 5,
       videoFps := 24 } : PipelineEnv).videoExists = true ∧
    (process_video
      { videoExists := true, outputDirExists := true, audioSize := 0,
        transcription := [⟨"hey", 0, 1⟩], frameCount := 5, videoFps := 24 }
      "video.mp4" "out" 1).2 = Except.ok [] :=
  ⟨rfl, ((claim5_empty_audio _ "video.mp4" "out" 1 rfl).1 rfl).1⟩

/-- C7: `process_video` raises a not-found error exactly when the input video
does not exist, and then before any other work (the trace is empty);
`alignment_to_srt` raises a not-found error exactly when the alignment JSON
file does not exist; in both operations the output directory (respectively the
output file's parent directory) is created on the success path, and whether it
already existed never changes the run's behaviour. -/
theorem claim7_not_found (env : PipelineEnv) (senv : SrtEnv)
    (video_path output_dir json_path srt_path : String) (fps : ℚ) :
    ((∃ p, (process_video env video_path output_dir fps).2
        = Except.error (PipeError.notFound p)) ↔ env.videoExists = false) ∧
    (env.videoExists = false → (process_video env video_path output_dir fps).1 = []) ∧
    ((∃ p, (alignment_to_srt senv json_path srt_path).2
        = Except.error (PipeError.notFound p)) ↔ senv.alignFileExists = false) ∧
    (env.videoExists = true →
      PipelineEvent.mkdirOutputDir ∈ (process_video env video_path output_dir fps).1) ∧
    (∀ b, process_video { env with outputDirExists := b } video_path output_dir fps
      = process_video env video_path output_dir fps) ∧
    (senv.alignFileExists = true →
      SrtEvent.mkdirParent ∈ (alignment_to_srt senv json_path srt_path).1) ∧
    (∀ b, alignment_to_srt { senv with parentDirExists := b } json_path srt_path
      = alignment_to_srt senv json_path srt_path) := by
  refine ⟨?_, ?_, ?_, ?_, ?_, ?_, ?_⟩
  · cases hv : env.videoExists
    · simp [process_video, hv]
    · simp [process_video, hv]
  · intro hv
    simp [process_video, hv]
  · cases hs : senv.alignFileExists
    · simp [alignment_to_srt, hs]
    · simp [alignment_to_srt, hs]
  · intro hv
    simp [process_video, hv]
    split_ifs <;> simp
  · intro b
    simp [process_video]
  · intro hs
    simp [alignment_to_srt, hs]
  · intro b
    simp [alignment_to_srt]

/-- Witness for C7: a missing video makes `process_video` stop with an empty
trace, and an existing alignment file makes `alignment_to_srt` create the
output's parent directory. -/
theorem claim7_witness :
    (process_video
      { videoExists := false, outputDirExists := true, audioSize := 0,
        transcription := [], frameCount := 0, videoFps := 24 }
      "video.mp4" "out" 1).1 = [] ∧
    SrtEvent.mkdirParent ∈ (alignment_to_srt
      { alignFileExists := true, parentDirExists := false, alignContent := [] }
      "alignment.json" "out.srt").1 :=
  ⟨(claim7_not_found
      { videoExists := false, outputDirExists := true, audioSize := 0,
        transcription := [], frameCount := 0, videoFps := 24 }
      { alignFileExists := true, parentDirExists := false, alignContent := [] }
      "video.mp4" "out" "alignment.json" "out.srt" 1).2.1 rfl,
   (claim7_not_found
      { videoExists := false, outputDirExists := true, audioSize := 0,
        transcription := [], frameCount := 0, videoFps := 24 }
      { alignFileExists := true, parentDirExists := false, alignContent := [] }
      "video.mp4" "out" "alignment.json" "out.srt" 1).2.2.2.2.2.1 rfl⟩

/-- C10: in every run of `process_video` with an existing video, the single
`fps` parameter is the rate passed to the frame sampler, the rate passed to
the Alignment Engine, and the `extraction_fps` recorded in the persisted
metadata; the alignment file written is either empty or exactly the engine's
output at that rate on the run's transcript. -/
theorem claim10_fps_consistency (env : PipelineEnv) (video_path output_dir : String)
    (fps : ℚ) (hv : env.videoExists = true) :
    (∀ g, PipelineEvent.extractFramesCall g
        ∈ (process_video env video_path output_dir fps).1 → g = fps) ∧
    (∀ g, PipelineEvent.alignCall g
        ∈ (process_video env video_path output_dir fps).1 → g = fps) ∧
    (∀ m, PipelineEvent.writeMetadataFile m
        ∈ (process_video env video_path output_dir fps).1 → m.extraction_fps = fps) ∧
    (∀ l, PipelineEvent.writeAlignmentFile l
        ∈ (process_video env video_path output_dir fps).1 →
      l = [] ∨ l = align_frames_to_transcript
        (if env.audioSize = 0 then [] else env.transcription) env.videoFps fps) := by
  refine ⟨?_, ?_, ?_, ?_⟩
  · intro g hg
    simp [process_video, hv] at hg
    revert hg
    split_ifs <;> simp
  · intro g hg
    simp [process_video, hv] at hg
    revert hg
    split_ifs <;> simp
  · intro m hm
    simp [process_video, hv] at hm
    revert hm
    split_ifs <;> simp <;> intro hm <;> simp [hm]
  · intro l hl
    simp [process_video, hv] at hl
    revert hl
    split_ifs with ha ht <;> simp <;> intro hl <;> simp [hl, ha]

/-- Witness for C10: on a concrete empty-audio run at `fps = 1`, the persisted
metadata records `extraction_fps = 1`. -/
theorem claim10_witness :
    ({ videoExists := true, outputDirExists := true, audioSize := 0,
       transcription := [], frameCount := 5, videoFps := 24 } : PipelineEnv).videoExists
      = true ∧
    ({ video_path := "video.mp4", audio_path := "out" ++ "/audio.wav",
       frame_dir := "out" ++ "/frames", frame_count := 5, video_fps := 24,
       extraction_fps := 1 } : RunMetadata).extraction_fps = 1 := by
  have hm : PipelineEvent.writeMetadataFile
      { video_path := "video.mp4", audio_path := "out" ++ "/audio.wav",
        frame_dir := "out" ++ "/frames", frame_count := 5, video_fps := 24,
        extraction_fps := 1 }
      ∈ (process_video
        { videoExists := true, outputDirExists := true, audioSize := 0,
          transcription := [], frameCount := 5, videoFps := 24 }
        "video.mp4" "out" 1).1 := by
    simp [process_video]
  exact ⟨rfl, (claim10_fps_consistency _ "video.mp4" "out" 1 rfl).2.2.1 _ hm⟩

end VideoAudioAlign
